import Mathlib

/-!
Verification development for the "hello triangle" OpenGL program in
`src/main.cpp`.  The program is embedded shallowly: every GLFW / GL / GLAD
call and every stream write is recorded as an `Event`, GL object state
(generated names, live objects, the currently bound VAO and array buffer,
and per-VAO attribute records) is threaded explicitly as a `GLState`, and
the behaviour of the external collaborators (windowing library, loader,
GLSL compiler and linker, keyboard) is supplied by an `Env` of oracles.
The functions `initWindow`, `processInput`, `processVertexShader`,
`processFragmentShader`, `processShaderProgram`, the loop body and `main`
mirror the C++ source line by line.
-/

namespace OpenGLTriangle

/-- GL bitmask for the color buffer, from the GL headers. -/
def GL_COLOR_BUFFER_BIT : Nat := 0x4000

/-- GL enum for the array-buffer target. -/
def GL_ARRAY_BUFFER : Nat := 0x8892

/-- GL enum for the static-draw usage hint. -/
def GL_STATIC_DRAW : Nat := 0x88E4

/-- GL enum for the float attribute type. -/
def GL_FLOAT : Nat := 0x1406

/-- GL enum for the triangles primitive. -/
def GL_TRIANGLES : Nat := 4

/-- GL enum for a vertex shader object. -/
def GL_VERTEX_SHADER : Nat := 0x8B31

/-- GL enum for a fragment shader object. -/
def GL_FRAGMENT_SHADER : Nat := 0x8B30

/-- GL enum for the compile-status query. -/
def GL_COMPILE_STATUS : Nat := 0x8B81

/-- GL enum for the link-status query. -/
def GL_LINK_STATUS : Nat := 0x8B82

/-- GLFW key code of the Escape key. -/
def GLFW_KEY_ESCAPE : Nat := 256

/-- GLFW window hint identifier for the context major version. -/
def GLFW_CONTEXT_VERSION_MAJOR : Nat := 0x22002

/-- GLFW window hint identifier for the context minor version. -/
def GLFW_CONTEXT_VERSION_MINOR : Nat := 0x22003

/-- GLFW window hint identifier for the profile selection. -/
def GLFW_OPENGL_PROFILE : Nat := 0x22008

/-- GLFW enum selecting the core profile. -/
def GLFW_OPENGL_CORE_PROFILE : Nat := 0x32001

/-- Window width, the global `SCREEN_WIDTH` of the source. -/
def SCREEN_WIDTH : Nat := 800

/-- Window height, the global `SCREEN_HEIGHT` of the source. -/
def SCREEN_HEIGHT : Nat := 600

/-- The triangle vertex array of `main` (floats modelled as rationals):
three vertices times three coordinates. -/
def vertices : List ℚ := [-1/2, -1/2, 0, 1/2, -1/2, 0, 0, 1/2, 0]

/-- The value of `sizeof(vertices)` in the source: each float is 4 bytes. -/
def verticesByteSize : Nat := 4 * vertices.length

/-- Diagnostic text printed on window-creation failure. -/
def windowErrMsg : String := "Failed to create GLFW window"

/-- Diagnostic text printed on GLAD loader failure. -/
def gladErrMsg : String := "Failed to initialize GLAD"

/-- Diagnostic text printed on vertex shader compile failure. -/
def vertexErrMsg : String := "ERROR::SHADER::VERTEX::COMPILATION_FAILED\n"

/-- Diagnostic text printed on fragment shader compile failure. -/
def fragmentErrMsg : String := "ERROR::SHADER::FRAGMENT::COMPILATION_FAILED\n"

/-- Diagnostic text printed on program link failure. -/
def linkErrMsg : String := "ERROR::SHADER::PROGRAM::LINKING_FAILED\n"

/-- The newline written by `std::endl`. -/
def endlStr : String := "\n"

/-- One observable action of the program: a GLFW, GLAD or GL call, or a
write to one of the standard streams.  `stderrWrite` exists so that
"nothing is ever written to standard error" is expressible; the source
only ever uses `std::cout`. -/
inductive Event where
  | glfwInitCall
  | glfwWindowHint (target value : Nat)
  | glfwCreateWindow (width height : Nat) (title : String) (ok : Bool)
  | glfwTerminate
  | glfwMakeContextCurrent
  | glfwSetFramebufferSizeCallback
  | gladLoadGLLoader (ok : Bool)
  | glfwWindowShouldClose (result : Bool)
  | glfwGetKey (key : Nat) (pressed : Bool)
  | glfwSetWindowShouldClose (value : Bool)
  | glfwPollEvents
  | glfwSwapBuffers
  | glViewport (x y width height : Int)
  | glClearColor (r g b a : ℚ)
  | glClear (mask : Nat)
  | glGenVertexArrays (name : Nat)
  | glBindVertexArray (name : Nat)
  | glGenBuffers (name : Nat)
  | glBindBuffer (target name : Nat)
  | glBufferData (target size : Nat) (data : List ℚ) (usage : Nat)
  | glVertexAttribPointer (index size ty : Nat) (normalized : Bool) (stride offset : Nat)
  | glEnableVertexAttribArray (index : Nat)
  | glCreateShader (ty name : Nat)
  | glShaderSource (name : Nat)
  | glCompileShader (name : Nat)
  | glGetShaderiv (name pname : Nat) (value : Int)
  | glGetShaderInfoLog (name bufSize : Nat)
  | glCreateProgram (name : Nat)
  | glAttachShader (program shader : Nat)
  | glLinkProgram (name : Nat)
  | glGetProgramiv (name pname : Nat) (value : Int)
  | glGetProgramInfoLog (name bufSize : Nat)
  | glDeleteShader (name : Nat)
  | glDeleteProgram (name : Nat)
  | glDeleteBuffers (name : Nat)
  | glDeleteVertexArrays (name : Nat)
  | glUseProgram (name : Nat)
  | glDrawArrays (mode first count : Nat)
  | stdoutWrite (s : String)
  | stderrWrite (s : String)
  deriving DecidableEq

/-- A vertex-attribute record stored inside a VAO: the arguments of
`glVertexAttribPointer` plus the array buffer captured at that moment. -/
structure AttribPtr where
  size : Nat
  ty : Nat
  normalized : Bool
  stride : Nat
  offset : Nat
  buffer : Option Nat
  deriving DecidableEq

/-- The driver-side object state: a fresh-name counter, the sets of live
objects per kind, the current bindings, and per-VAO attribute records. -/
structure GLState where
  nextName : Nat
  liveShaders : List Nat
  livePrograms : List Nat
  liveBuffers : List Nat
  liveVAOs : List Nat
  boundVAO : Option Nat
  boundArrayBuffer : Option Nat
  vaoAttrib : List (Nat × Nat × AttribPtr)
  vaoEnabled : List (Nat × Nat)
  deriving DecidableEq

/-- The GL state before any object has been generated. -/
def GLState.empty : GLState :=
  { nextName := 1, liveShaders := [], livePrograms := [], liveBuffers := [],
    liveVAOs := [], boundVAO := none, boundArrayBuffer := none,
    vaoAttrib := [], vaoEnabled := [] }

/-- Effect of `glGenVertexArrays(1, &VAO)`: returns a fresh name. -/
def GLState.genVertexArray (g : GLState) : Nat × GLState :=
  (g.nextName, { g with nextName := g.nextName + 1,
                        liveVAOs := g.liveVAOs ++ [g.nextName] })

/-- Effect of `glGenBuffers(1, &VBO)`: returns a fresh name. -/
def GLState.genBuffer (g : GLState) : Nat × GLState :=
  (g.nextName, { g with nextName := g.nextName + 1,
                        liveBuffers := g.liveBuffers ++ [g.nextName] })

/-- Effect of `glCreateShader`: returns a fresh shader name. -/
def GLState.createShader (g : GLState) : Nat × GLState :=
  (g.nextName, { g with nextName := g.nextName + 1,
                        liveShaders := g.liveShaders ++ [g.nextName] })

/-- Effect of `glCreateProgram`: returns a fresh program name. -/
def GLState.createProgram (g : GLState) : Nat × GLState :=
  (g.nextName, { g with nextName := g.nextName + 1,
                        livePrograms := g.livePrograms ++ [g.nextName] })

/-- Effect of `glDeleteShader`: the name is no longer a live shader. -/
def GLState.deleteShader (g : GLState) (n : Nat) : GLState :=
  { g with liveShaders := g.liveShaders.filter (fun m => m != n) }

/-- Effect of `glBindVertexArray`. -/
def GLState.bindVertexArray (g : GLState) (n : Nat) : GLState :=
  { g with boundVAO := some n }

/-- Effect of `glBindBuffer(GL_ARRAY_BUFFER, n)`. -/
def GLState.bindArrayBuffer (g : GLState) (n : Nat) : GLState :=
  { g with boundArrayBuffer := some n }

/-- Effect of `glVertexAttribPointer`: records the descriptor, together
with the currently bound array buffer, into the currently bound VAO. -/
def GLState.vertexAttribPointer (g : GLState) (idx size ty : Nat)
    (norm : Bool) (stride off : Nat) : GLState :=
  match g.boundVAO with
  | none => g
  | some v =>
    { g with vaoAttrib :=
        (v, idx, ⟨size, ty, norm, stride, off, g.boundArrayBuffer⟩) ::
          g.vaoAttrib.filter (fun e => !(e.1 == v && e.2.1 == idx)) }

/-- Effect of `glEnableVertexAttribArray` on the currently bound VAO. -/
def GLState.enableVertexAttribArray (g : GLState) (idx : Nat) : GLState :=
  match g.boundVAO with
  | none => g
  | some v =>
    { g with vaoEnabled :=
        (v, idx) :: g.vaoEnabled.filter (fun e => !(e.1 == v && e.2 == idx)) }

/-- The attribute descriptor a VAO records for a given attribute index. -/
def GLState.attribOf (g : GLState) (v i : Nat) : Option AttribPtr :=
  (g.vaoAttrib.find? (fun e => e.1 == v && e.2.1 == i)).map (fun e => e.2.2)

/-- Whether a VAO has a given attribute index enabled. -/
def GLState.isEnabled (g : GLState) (v i : Nat) : Bool :=
  decide ((v, i) ∈ g.vaoEnabled)

/-- Behaviour of the external collaborators: success of the windowing
library, of window creation, of the GL loader, of the two shader
compilations and of the link, the info logs the driver would produce, and
the keyboard / OS close events per frame index. -/
structure Env where
  glfwInitOk : Bool
  createWindowOk : Bool
  gladOk : Bool
  vertexCompileOk : Bool
  fragmentCompileOk : Bool
  linkOk : Bool
  vertexLog : String
  fragmentLog : String
  programLog : String
  escPressed : Nat → Bool
  osClose : Nat → Bool

/-- What `glGetShaderInfoLog` / `glGetProgramInfoLog` with a 512-byte
buffer deliver: at most 511 characters of the log (plus the terminator). -/
def infoLogTrunc (s : String) : String := ⟨s.data.take 511⟩

/-- Embedding of `initWindow` (main.cpp lines 36-64).  The returned flag
says whether the returned `GLFWwindow*` is non-null.  The result of
`glfwInit` is ignored, exactly as in the source; if the library failed to initialize,
window creation fails.  On window-creation failure the source prints the
diagnostic and calls `glfwTerminate`; on GLAD failure it prints the
diagnostic and returns null without terminating the library. -/
def initWindow (env : Env) : Bool × List Event :=
  let windowOk := env.glfwInitOk && env.createWindowOk
  let createTr : List Event :=
    [Event.glfwInitCall,
     Event.glfwWindowHint GLFW_CONTEXT_VERSION_MAJOR 3,
     Event.glfwWindowHint GLFW_CONTEXT_VERSION_MINOR 3,
     Event.glfwWindowHint GLFW_OPENGL_PROFILE GLFW_OPENGL_CORE_PROFILE,
     Event.glfwCreateWindow SCREEN_WIDTH SCREEN_HEIGHT ("myOpenGLProgram") windowOk]
  if windowOk then
    let ctxTr := createTr ++
      [Event.glfwMakeContextCurrent, Event.glfwSetFramebufferSizeCallback,
       Event.gladLoadGLLoader env.gladOk]
    if env.gladOk then (true, ctxTr)
    else (false, ctxTr ++ [Event.stdoutWrite gladErrMsg, Event.stdoutWrite endlStr])
  else
    (false, createTr ++ [Event.stdoutWrite windowErrMsg, Event.stdoutWrite endlStr,
                         Event.glfwTerminate])

/-- Embedding of the framebuffer-resize callback (lines 152-156). -/
def framebuffer_size_callback (width height : Int) : List Event :=
  [Event.glViewport 0 0 width height]

/-- Embedding of `processVertexShader` (lines 158-181): create, source,
compile, query status; on failure fetch and print the info log; in every
case return the shader handle. -/
def processVertexShader (env : Env) (g : GLState) : Nat × GLState × List Event :=
  let c := g.createShader
  let errTr : List Event :=
    if env.vertexCompileOk then []
    else [Event.glGetShaderInfoLog c.1 512,
          Event.stdoutWrite vertexErrMsg,
          Event.stdoutWrite (infoLogTrunc env.vertexLog),
          Event.stdoutWrite endlStr]
  (c.1, c.2,
    [Event.glCreateShader GL_VERTEX_SHADER c.1,
     Event.glShaderSource c.1,
     Event.glCompileShader c.1,
     Event.glGetShaderiv c.1 GL_COMPILE_STATUS (if env.vertexCompileOk then 1 else 0)]
    ++ errTr)

/-- Embedding of `processFragmentShader` (lines 183-201). -/
def processFragmentShader (env : Env) (g : GLState) : Nat × GLState × List Event :=
  let c := g.createShader
  let errTr : List Event :=
    if env.fragmentCompileOk then []
    else [Event.glGetShaderInfoLog c.1 512,
          Event.stdoutWrite fragmentErrMsg,
          Event.stdoutWrite (infoLogTrunc env.fragmentLog),
          Event.stdoutWrite endlStr]
  (c.1, c.2,
    [Event.glCreateShader GL_FRAGMENT_SHADER c.1,
     Event.glShaderSource c.1,
     Event.glCompileShader c.1,
     Event.glGetShaderiv c.1 GL_COMPILE_STATUS (if env.fragmentCompileOk then 1 else 0)]
    ++ errTr)

/-- Embedding of `processShaderProgram` (lines 203-230): create the
program, compile both shaders, attach, link, query link status (printing
the log on failure), then delete both shader objects and return the
program handle. -/
def processShaderProgram (env : Env) (g : GLState) : Nat × GLState × List Event :=
  let cp := g.createProgram
  let pv := processVertexShader env cp.2
  let pf := processFragmentShader env pv.2.1
  let linkTr : List Event :=
    [Event.glAttachShader cp.1 pv.1,
     Event.glAttachShader cp.1 pf.1,
     Event.glLinkProgram cp.1,
     Event.glGetProgramiv cp.1 GL_LINK_STATUS (if env.linkOk then 1 else 0)]
  let errTr : List Event :=
    if env.linkOk then []
    else [Event.glGetProgramInfoLog cp.1 512,
          Event.stdoutWrite linkErrMsg,
          Event.stdoutWrite (infoLogTrunc env.programLog),
          Event.stdoutWrite endlStr]
  (cp.1, ((pf.2.1).deleteShader pv.1).deleteShader pf.1,
    Event.glCreateProgram cp.1 ::
      (pv.2.2 ++ pf.2.2 ++ linkTr ++ errTr ++
        [Event.glDeleteShader pv.1, Event.glDeleteShader pf.1]))

/-- Embedding of the geometry section of the loop body (lines 85-121):
generate and bind a VAO, generate and bind a VBO, upload the 36 bytes of
vertex data with `GL_STATIC_DRAW`, declare attribute 0 and enable it.
Returns the (VAO, VBO) pair. -/
def triangleSetup (g : GLState) : (Nat × Nat) × GLState × List Event :=
  let gv := g.genVertexArray
  let g1 := (gv.2).bindVertexArray gv.1
  let gb := g1.genBuffer
  let g2 := (gb.2).bindArrayBuffer gb.1
  let g3 := g2.vertexAttribPointer 0 3 GL_FLOAT false (3 * 4) 0
  let g4 := g3.enableVertexAttribArray 0
  ((gv.1, gb.1), g4,
   [Event.glGenVertexArrays gv.1,
    Event.glBindVertexArray gv.1,
    Event.glGenBuffers gb.1,
    Event.glBindBuffer GL_ARRAY_BUFFER gb.1,
    Event.glBufferData GL_ARRAY_BUFFER verticesByteSize vertices GL_STATIC_DRAW,
    Event.glVertexAttribPointer 0 3 GL_FLOAT false (3 * 4) 0,
    Event.glEnableVertexAttribArray 0])

/-- Program state while the render loop runs: the GL state, the close-requested
flag of the window, and the frame counter used to index the oracles. -/
structure St where
  gl : GLState
  closeFlag : Bool
  frame : Nat
  deriving DecidableEq

/-- Embedding of `processInput` (lines 145-149): query the Escape key and
set the close flag if it is pressed. -/
def processInput (env : Env) (st : St) : St × List Event :=
  if env.escPressed st.frame then
    ({ st with closeFlag := true },
     [Event.glfwGetKey GLFW_KEY_ESCAPE true, Event.glfwSetWindowShouldClose true])
  else
    (st, [Event.glfwGetKey GLFW_KEY_ESCAPE false])

/-- The clear section of the loop body (lines 76-77). -/
def clearTrace : List Event :=
  [Event.glClearColor (1/5) (1/10) (1/10) 1, Event.glClear GL_COLOR_BUFFER_BIT]

/-- One iteration of the render loop of `main` (lines 71-137), in source
order: input, clear, geometry setup, shader program build, use program,
bind VAO, draw, poll events, swap buffers.  `glfwPollEvents` may deliver
an OS close request, folded into the close flag. -/
def frameBody (env : Env) (st : St) : St × List Event :=
  let pIn := processInput env st
  let geo := triangleSetup pIn.1.gl
  let shp := processShaderProgram env geo.2.1
  ({ gl := shp.2.1,
     closeFlag := pIn.1.closeFlag || env.osClose pIn.1.frame,
     frame := pIn.1.frame + 1 },
   pIn.2 ++ clearTrace ++ geo.2.2 ++ shp.2.2 ++
     [Event.glUseProgram shp.1,
      Event.glBindVertexArray geo.1.1,
      Event.glDrawArrays GL_TRIANGLES 0 3,
      Event.glfwPollEvents,
      Event.glfwSwapBuffers])

/-- How the render loop ended: the close flag was observed set, or the
fuel ran out (the execution is still in progress). -/
inductive LoopRes where
  | exited
  | fuelOut
  deriving DecidableEq

/-- The `while (!glfwWindowShouldClose(window))` loop, with fuel bounding
the number of head checks.  Only reached with a non-null window. -/
def loopAux (env : Env) : Nat → St → LoopRes × List Event
  | 0, _ => (LoopRes.fuelOut, [])
  | fuel + 1, st =>
    if st.closeFlag then (LoopRes.exited, [Event.glfwWindowShouldClose true])
    else
      let fb := frameBody env st
      let rest := loopAux env fuel fb.1
      (rest.1, Event.glfwWindowShouldClose false :: (fb.2 ++ rest.2))

/-- How a run of `main` ended: a normal `return code`, a crash from
undefined behaviour (the source dereferences the null window handle via
`glfwWindowShouldClose(nullptr)` when `initWindow` failed), or fuel
exhaustion (the loop is still running). -/
inductive Outcome where
  | exit (code : Int)
  | crash
  | timeout
  deriving DecidableEq

/-- The program state at the first loop head: nothing generated, the
close flag unset, frame counter zero. -/
def startSt : St := { gl := GLState.empty, closeFlag := false, frame := 0 }

/-- Embedding of `main` (lines 66-142): run `initWindow`, then the render
loop, then `glfwTerminate` and `return 0`.  When `initWindow` returned a
null handle, the very first `glfwWindowShouldClose(window)` call
dereferences it: undefined behaviour, modelled as `Outcome.crash`. -/
def main (env : Env) (fuel : Nat) : Outcome × List Event :=
  let iw := initWindow env
  if iw.1 then
    let lr := loopAux env fuel startSt
    match lr.1 with
    | LoopRes.exited => (Outcome.exit 0, iw.2 ++ lr.2 ++ [Event.glfwTerminate])
    | LoopRes.fuelOut => (Outcome.timeout, iw.2 ++ lr.2)
  else
    (Outcome.crash, iw.2)

/-- Recognizes a draw call. -/
def isDraw : Event → Bool
  | Event.glDrawArrays _ _ _ => true
  | _ => false

/-- Recognizes a buffer swap. -/
def isSwap : Event → Bool
  | Event.glfwSwapBuffers => true
  | _ => false

/-- Recognizes an event poll. -/
def isPoll : Event → Bool
  | Event.glfwPollEvents => true
  | _ => false

/-- Recognizes a clear of the framebuffer. -/
def isClear : Event → Bool
  | Event.glClear _ => true
  | _ => false

/-- Recognizes a write to standard error. -/
def isStderr : Event → Bool
  | Event.stderrWrite _ => true
  | _ => false

/-- Recognizes a write to standard output. -/
def isStdout : Event → Bool
  | Event.stdoutWrite _ => true
  | _ => false

/-- Recognizes a release of a VAO, VBO or program object (the objects
claim C4 is about; intermediate shader deletion is separate). -/
def isRelease : Event → Bool
  | Event.glDeleteProgram _ => true
  | Event.glDeleteBuffers _ => true
  | Event.glDeleteVertexArrays _ => true
  | _ => false

/-- Well-formedness of a GL state: every recorded name is below the
fresh-name counter.  Holds of `GLState.empty` and is preserved by all the
operations; it makes freshly generated names genuinely new. -/
def GLWf (g : GLState) : Prop :=
  (∀ n ∈ g.liveShaders, n < g.nextName) ∧
  (∀ n ∈ g.livePrograms, n < g.nextName) ∧
  (∀ n ∈ g.liveBuffers, n < g.nextName) ∧
  (∀ n ∈ g.liveVAOs, n < g.nextName) ∧
  (∀ e ∈ g.vaoAttrib, e.1 < g.nextName) ∧
  (∀ e ∈ g.vaoEnabled, e.1 < g.nextName)

/-- An environment in which every external step succeeds and Escape is
pressed on the first frame. -/
def envEsc : Env :=
  { glfwInitOk := true, createWindowOk := true, gladOk := true,
    vertexCompileOk := true, fragmentCompileOk := true, linkOk := true,
    vertexLog := "", fragmentLog := "", programLog := "",
    escPressed := fun _ => true, osClose := fun _ => false }

/-- An environment in which window creation fails. -/
def envWinFail : Env :=
  { glfwInitOk := true, createWindowOk := false, gladOk := true,
    vertexCompileOk := true, fragmentCompileOk := true, linkOk := true,
    vertexLog := "", fragmentLog := "", programLog := "",
    escPressed := fun _ => false, osClose := fun _ => false }

/-- An environment in which the GLAD loader fails after a successful
window creation. -/
def envGladFail : Env :=
  { glfwInitOk := true, createWindowOk := true, gladOk := false,
    vertexCompileOk := true, fragmentCompileOk := true, linkOk := true,
    vertexLog := "", fragmentLog := "", programLog := "",
    escPressed := fun _ => false, osClose := fun _ => false }

/-- An environment in which both shader compilations and the link fail,
with fixed info logs. -/
def envShaderFail : Env :=
  { glfwInitOk := true, createWindowOk := true, gladOk := true,
    vertexCompileOk := false, fragmentCompileOk := false, linkOk := false,
    vertexLog := "vlog", fragmentLog := "flog", programLog := "plog",
    escPressed := fun _ => true, osClose := fun _ => false }

/-- An environment in which the windowing library itself fails to
initialize (the source ignores the result of `glfwInit`; window creation
then fails as a consequence). -/
def envInitFail : Env :=
  { glfwInitOk := false, createWindowOk := true, gladOk := true,
    vertexCompileOk := true, fragmentCompileOk := true, linkOk := true,
    vertexLog := "", fragmentLog := "", programLog := "",
    escPressed := fun _ => false, osClose := fun _ => false }

/-! ## Helper lemmas -/

theorem processInput_gl (env : Env) (st : St) : (processInput env st).1.gl = st.gl := by
  unfold processInput; split <;> rfl

theorem frameBody_trace (env : Env) (st : St) :
    (frameBody env st).2 =
      (processInput env st).2 ++ clearTrace ++ (triangleSetup st.gl).2.2 ++
        (processShaderProgram env (triangleSetup st.gl).2.1).2.2 ++
        [Event.glUseProgram (processShaderProgram env (triangleSetup st.gl).2.1).1,
         Event.glBindVertexArray (triangleSetup st.gl).1.1,
         Event.glDrawArrays GL_TRIANGLES 0 3,
         Event.glfwPollEvents,
         Event.glfwSwapBuffers] := by
  simp only [frameBody, processInput_gl]

theorem processInput_filter (env : Env) (st : St) (p : Event → Bool)
    (h1 : p (Event.glfwGetKey GLFW_KEY_ESCAPE true) = false)
    (h2 : p (Event.glfwGetKey GLFW_KEY_ESCAPE false) = false)
    (h3 : p (Event.glfwSetWindowShouldClose true) = false) :
    (processInput env st).2.filter p = [] := by
  unfold processInput; split <;> simp [List.filter, h1, h2, h3]

theorem triangleSetup_filter_isDraw (g : GLState) :
    (triangleSetup g).2.2.filter isDraw = [] := by
  simp [triangleSetup, isDraw, List.filter]

theorem shaderProgram_filter_isDraw (env : Env) (g : GLState) :
    (processShaderProgram env g).2.2.filter isDraw = [] := by
  cases hv : env.vertexCompileOk <;> cases hf : env.fragmentCompileOk <;>
    cases hl : env.linkOk <;>
    simp [processShaderProgram, processVertexShader, processFragmentShader, hv, hf, hl,
      isDraw, List.filter_append, List.filter]

theorem frame_filter_isDraw (env : Env) (st : St) :
    (frameBody env st).2.filter isDraw = [Event.glDrawArrays GL_TRIANGLES 0 3] := by
  rw [frameBody_trace]
  simp [List.filter_append, processInput_filter, triangleSetup_filter_isDraw,
    shaderProgram_filter_isDraw, clearTrace, isDraw, List.filter,
    apply_ite (List.filter isDraw)]

theorem frame_filter_isSwap (env : Env) (st : St) :
    (frameBody env st).2.filter isSwap = [Event.glfwSwapBuffers] := by
  rw [frameBody_trace]
  simp [List.filter_append, processInput_filter, processShaderProgram,
    processVertexShader, processFragmentShader, triangleSetup, clearTrace,
    isSwap, List.filter, apply_ite (List.filter isSwap)]

theorem frame_filter_isPoll (env : Env) (st : St) :
    (frameBody env st).2.filter isPoll = [Event.glfwPollEvents] := by
  rw [frameBody_trace]
  simp [List.filter_append, processInput_filter, processShaderProgram,
    processVertexShader, processFragmentShader, triangleSetup, clearTrace,
    isPoll, List.filter, apply_ite (List.filter isPoll)]

theorem frame_filter_isRelease (env : Env) (st : St) :
    (frameBody env st).2.filter isRelease = [] := by
  rw [frameBody_trace]
  simp [List.filter_append, processInput_filter, processShaderProgram,
    processVertexShader, processFragmentShader, triangleSetup, clearTrace,
    isRelease, List.filter, apply_ite (List.filter isRelease)]

theorem frame_filter_isStderr (env : Env) (st : St) :
    (frameBody env st).2.filter isStderr = [] := by
  rw [frameBody_trace]
  simp [List.filter_append, processInput_filter, processShaderProgram,
    processVertexShader, processFragmentShader, triangleSetup, clearTrace,
    isStderr, List.filter, apply_ite (List.filter isStderr)]

theorem frame_tail_decomp (env : Env) (st : St) :
    ∃ l p v, (frameBody env st).2 =
      l ++ [Event.glUseProgram p, Event.glBindVertexArray v,
            Event.glDrawArrays GL_TRIANGLES 0 3, Event.glfwPollEvents,
            Event.glfwSwapBuffers] := by
  refine ⟨(processInput env st).2 ++ clearTrace ++ (triangleSetup st.gl).2.2 ++
    (processShaderProgram env (triangleSetup st.gl).2.1).2.2,
    (processShaderProgram env (triangleSetup st.gl).2.1).1,
    (triangleSetup st.gl).1.1, ?_⟩
  rw [frameBody_trace]

theorem frame_clear_before_draw (env : Env) (st : St) :
    ∃ m1 m2 m3, (frameBody env st).2 =
      m1 ++ Event.glClear GL_COLOR_BUFFER_BIT ::
        (m2 ++ Event.glDrawArrays GL_TRIANGLES 0 3 :: m3) := by
  refine ⟨(processInput env st).2 ++ [Event.glClearColor (1/5) (1/10) (1/10) 1],
    (triangleSetup st.gl).2.2 ++
      (processShaderProgram env (triangleSetup st.gl).2.1).2.2 ++
      [Event.glUseProgram (processShaderProgram env (triangleSetup st.gl).2.1).1,
       Event.glBindVertexArray (triangleSetup st.gl).1.1],
    [Event.glfwPollEvents, Event.glfwSwapBuffers], ?_⟩
  rw [frameBody_trace]
  simp [clearTrace, List.append_assoc]

theorem initWindow_filter_isStderr (env : Env) :
    (initWindow env).2.filter isStderr = [] := by
  unfold initWindow
  cases h1 : env.glfwInitOk <;> cases h2 : env.createWindowOk <;> cases h3 : env.gladOk <;>
    simp [isStderr, List.filter]

theorem loopAux_filter_isStderr (env : Env) :
    ∀ fuel st, (loopAux env fuel st).2.filter isStderr = [] := by
  intro fuel
  induction fuel with
  | zero => intro st; rfl
  | succ n ih =>
    intro st
    unfold loopAux
    cases hc : st.closeFlag <;>
      simp [hc, List.filter_append, frame_filter_isStderr, ih, isStderr, List.filter]

theorem main_filter_isStderr (env : Env) (fuel : Nat) :
    (main env fuel).2.filter isStderr = [] := by
  simp only [main]
  split
  · split <;>
      simp [List.filter_append, initWindow_filter_isStderr, loopAux_filter_isStderr,
        isStderr, List.filter]
  · simp [initWindow_filter_isStderr]

theorem initWindow_windowErr_iff (env : Env) :
    Event.stdoutWrite windowErrMsg ∈ (initWindow env).2 ↔
      (env.glfwInitOk && env.createWindowOk) = false := by
  unfold initWindow
  cases h1 : env.glfwInitOk <;> cases h2 : env.createWindowOk <;> cases h3 : env.gladOk <;>
    simp [windowErrMsg, gladErrMsg, endlStr]

theorem initWindow_gladErr_iff (env : Env) :
    Event.stdoutWrite gladErrMsg ∈ (initWindow env).2 ↔
      ((env.glfwInitOk && env.createWindowOk) = true ∧ env.gladOk = false) := by
  unfold initWindow
  cases h1 : env.glfwInitOk <;> cases h2 : env.createWindowOk <;> cases h3 : env.gladOk <;>
    simp [windowErrMsg, gladErrMsg, endlStr]

theorem vertexErr_iff (env : Env) (g : GLState) :
    Event.stdoutWrite vertexErrMsg ∈ (processVertexShader env g).2.2 ↔
      env.vertexCompileOk = false := by
  cases hv : env.vertexCompileOk <;> simp [processVertexShader, hv]

theorem fragmentErr_iff (env : Env) (g : GLState) :
    Event.stdoutWrite fragmentErrMsg ∈ (processFragmentShader env g).2.2 ↔
      env.fragmentCompileOk = false := by
  cases hf : env.fragmentCompileOk <;> simp [processFragmentShader, hf]

theorem linkErr_iff (env : Env) (g : GLState) :
    Event.glGetProgramInfoLog (processShaderProgram env g).1 512 ∈
        (processShaderProgram env g).2.2 ↔ env.linkOk = false := by
  cases hv : env.vertexCompileOk <;> cases hf : env.fragmentCompileOk <;>
    cases hl : env.linkOk <;>
    simp [processShaderProgram, processVertexShader, processFragmentShader, hv, hf, hl]

theorem linkErr_block (env : Env) (g : GLState) (hl : env.linkOk = false) :
    ∃ l1 l2, (processShaderProgram env g).2.2 =
      l1 ++ [Event.glGetProgramInfoLog (processShaderProgram env g).1 512,
             Event.stdoutWrite linkErrMsg,
             Event.stdoutWrite (infoLogTrunc env.programLog),
             Event.stdoutWrite endlStr] ++ l2 := by
  refine ⟨Event.glCreateProgram g.createProgram.1 ::
    ((processVertexShader env g.createProgram.2).2.2 ++
     (processFragmentShader env (processVertexShader env g.createProgram.2).2.1).2.2 ++
     [Event.glAttachShader g.createProgram.1 (processVertexShader env g.createProgram.2).1,
      Event.glAttachShader g.createProgram.1
        (processFragmentShader env (processVertexShader env g.createProgram.2).2.1).1,
      Event.glLinkProgram g.createProgram.1,
      Event.glGetProgramiv g.createProgram.1 GL_LINK_STATUS 0]),
    [Event.glDeleteShader (processVertexShader env g.createProgram.2).1,
     Event.glDeleteShader
       (processFragmentShader env (processVertexShader env g.createProgram.2).2.1).1], ?_⟩
  simp [processShaderProgram, hl, List.append_assoc]

theorem infoLogTrunc_le (s : String) : (infoLogTrunc s).length ≤ 512 := by
  simp only [infoLogTrunc, String.length]
  exact le_trans (List.length_take_le _ _) (by norm_num)

theorem c8_loop_unfold (env : Env) (fuel : Nat) (st : St) (h : st.closeFlag = false) :
    loopAux env (fuel + 1) st =
      ((loopAux env fuel (frameBody env st).1).1,
       Event.glfwWindowShouldClose false ::
         ((frameBody env st).2 ++ (loopAux env fuel (frameBody env st).1).2)) := by
  simp [loopAux, h]

/-! ## Claims -/

/-- Claim C1 (evidence of a code bug): bootstrap failure is not fatal in
the clean way the specification states.  When GLAD fails after a
successful window creation, the diagnostic is emitted but `glfwTerminate`
is never called and the program crashes dereferencing the null handle in
`glfwWindowShouldClose`; when `glfwInit` fails, its result is ignored and
the program only fails later with the window-creation diagnostic, again
crashing; even on window-creation failure (where the diagnostic and
`glfwTerminate` do happen) the program crashes instead of exiting. -/
theorem c1_bootstrap_failure_unclean :
    ((main envGladFail 3).1 = Outcome.crash ∧
     Event.stdoutWrite gladErrMsg ∈ (main envGladFail 3).2 ∧
     Event.glfwTerminate ∉ (main envGladFail 3).2) ∧
    ((main envInitFail 3).1 = Outcome.crash ∧
     Event.stdoutWrite windowErrMsg ∈ (main envInitFail 3).2) ∧
    ((main envWinFail 3).1 = Outcome.crash ∧
     Event.glfwTerminate ∈ (main envWinFail 3).2 ∧
     Event.stdoutWrite windowErrMsg ∈ (main envWinFail 3).2) := by
  decide

/-- Claim C2, counterexample: an execution in which window creation fails
does not terminate normally with exit code 0 — `main` dereferences the
null window handle and crashes. -/
theorem c2_window_failure_crash :
    (main envWinFail 3).1 = Outcome.crash ∧
    (main envWinFail 3).1 ≠ Outcome.exit 0 := by
  decide

/-- Claim C2 (amended): every execution that terminates normally exits
with code 0; there is no path returning a different exit code.  (An
execution in which window creation fails does not terminate normally.) -/
theorem c2_exit_zero_on_normal_exit (env : Env) (fuel : Nat) (c : Int)
    (h : (main env fuel).1 = Outcome.exit c) : c = 0 := by
  simp only [main] at h
  split at h
  · split at h <;> simp_all
  · simp_all

/-- Witness for claim C2 at a concrete input: with every step succeeding
and Escape pressed on frame 0, `main` exits normally with code 0. -/
theorem c2_exit_zero_on_normal_exit_witness :
    (main envEsc 2).1 = Outcome.exit 0 ∧ (0 : Int) = 0 :=
  ⟨by decide, c2_exit_zero_on_normal_exit envEsc 2 0 (by decide)⟩

/-- Claim C3, counterexample: the window-creation diagnostic is written
to standard output (`std::cout`), and nothing at all is written to
standard error on that run — contradicting "written to standard error". -/
theorem c3_stderr_counterexample :
    Event.stdoutWrite windowErrMsg ∈ (main envWinFail 3).2 ∧
    (main envWinFail 3).2.filter isStderr = [] := by
  decide

/-- Claim C3 (amended): every diagnostic line is written to standard
output, not standard error (no run ever writes to standard error), and
each diagnostic is emitted exactly when the corresponding failure
occurred: the window diagnostic iff window creation failed, the GLAD
diagnostic iff the loader failed after a successful creation, the shader
diagnostics iff the respective compile failed, and the link diagnostic
(info-log fetch followed by the prefixed message and the truncated log)
iff the link failed. -/
theorem c3_diagnostics_stdout_only_on_failure :
    (∀ env fuel, (main env fuel).2.filter isStderr = []) ∧
    (∀ env, Event.stdoutWrite windowErrMsg ∈ (initWindow env).2 ↔
      (env.glfwInitOk && env.createWindowOk) = false) ∧
    (∀ env, Event.stdoutWrite gladErrMsg ∈ (initWindow env).2 ↔
      ((env.glfwInitOk && env.createWindowOk) = true ∧ env.gladOk = false)) ∧
    (∀ env g, Event.stdoutWrite vertexErrMsg ∈ (processVertexShader env g).2.2 ↔
      env.vertexCompileOk = false) ∧
    (∀ env g, Event.stdoutWrite fragmentErrMsg ∈ (processFragmentShader env g).2.2 ↔
      env.fragmentCompileOk = false) ∧
    (∀ env g, Event.glGetProgramInfoLog (processShaderProgram env g).1 512 ∈
        (processShaderProgram env g).2.2 ↔ env.linkOk = false) ∧
    (∀ env g, env.linkOk = false →
      ∃ l1 l2, (processShaderProgram env g).2.2 =
        l1 ++ [Event.glGetProgramInfoLog (processShaderProgram env g).1 512,
               Event.stdoutWrite linkErrMsg,
               Event.stdoutWrite (infoLogTrunc env.programLog),
               Event.stdoutWrite endlStr] ++ l2) :=
  ⟨main_filter_isStderr, initWindow_windowErr_iff, initWindow_gladErr_iff,
   vertexErr_iff, fragmentErr_iff, linkErr_iff, linkErr_block⟩

/-- Witness for claim C3 at concrete inputs: a failed window creation
emits the window diagnostic, a failed vertex compile emits its
diagnostic. -/
theorem c3_diagnostics_stdout_only_on_failure_witness :
    Event.stdoutWrite windowErrMsg ∈ (initWindow envWinFail).2 ∧
    Event.stdoutWrite vertexErrMsg ∈ (processVertexShader envShaderFail GLState.empty).2.2 :=
  ⟨(c3_diagnostics_stdout_only_on_failure.2.1 envWinFail).mpr (by decide),
   (c3_diagnostics_stdout_only_on_failure.2.2.2.1 envShaderFail GLState.empty).mpr
     (by decide)⟩

/-- Claim C4: every iteration of the render loop generates a fresh VAO
and a fresh VBO, re-uploads the vertex data, and creates and links a new
shader program; none of these objects is released during the iteration
(the trace of one loop body contains no delete of a VAO, VBO or program),
and all of them are still live in the state the next iteration starts
from. -/
theorem c4_frame_recreates_resources (env : Env) (st : St) (h : GLWf st.gl) :
    ∃ vao vbo prog,
      Event.glGenVertexArrays vao ∈ (frameBody env st).2 ∧
      vao ∉ st.gl.liveVAOs ∧ vao ∈ (frameBody env st).1.gl.liveVAOs ∧
      Event.glGenBuffers vbo ∈ (frameBody env st).2 ∧
      vbo ∉ st.gl.liveBuffers ∧ vbo ∈ (frameBody env st).1.gl.liveBuffers ∧
      Event.glBufferData GL_ARRAY_BUFFER verticesByteSize vertices GL_STATIC_DRAW ∈
        (frameBody env st).2 ∧
      Event.glCreateProgram prog ∈ (frameBody env st).2 ∧
      Event.glLinkProgram prog ∈ (frameBody env st).2 ∧
      prog ∉ st.gl.livePrograms ∧ prog ∈ (frameBody env st).1.gl.livePrograms ∧
      (frameBody env st).2.filter isRelease = [] := by
  obtain ⟨-, hP, hB, hV, -, -⟩ := h
  refine ⟨st.gl.nextName, st.gl.nextName + 1, st.gl.nextName + 2,
    ?_, ?_, ?_, ?_, ?_, ?_, ?_, ?_, ?_, ?_, ?_, frame_filter_isRelease env st⟩
  · rw [frameBody_trace]
    simp [triangleSetup, GLState.genVertexArray, GLState.bindVertexArray,
      GLState.genBuffer, GLState.bindArrayBuffer]
  · intro hmem; exact absurd (hV _ hmem) (by simp)
  · simp [frameBody, processInput_gl, triangleSetup, processShaderProgram,
      processVertexShader, processFragmentShader, GLState.genVertexArray,
      GLState.bindVertexArray, GLState.genBuffer, GLState.bindArrayBuffer,
      GLState.vertexAttribPointer, GLState.enableVertexAttribArray,
      GLState.createProgram, GLState.createShader, GLState.deleteShader]
  · rw [frameBody_trace]
    simp [triangleSetup, GLState.genVertexArray, GLState.bindVertexArray,
      GLState.genBuffer, GLState.bindArrayBuffer]
  · intro hmem; exact absurd (hB _ hmem) (by omega)
  · simp [frameBody, processInput_gl, triangleSetup, processShaderProgram,
      processVertexShader, processFragmentShader, GLState.genVertexArray,
      GLState.bindVertexArray, GLState.genBuffer, GLState.bindArrayBuffer,
      GLState.vertexAttribPointer, GLState.enableVertexAttribArray,
      GLState.createProgram, GLState.createShader, GLState.deleteShader]
  · rw [frameBody_trace]
    simp [triangleSetup]
  · rw [frameBody_trace]
    simp [triangleSetup, processShaderProgram, processVertexShader,
      processFragmentShader, GLState.genVertexArray, GLState.bindVertexArray,
      GLState.genBuffer, GLState.bindArrayBuffer, GLState.vertexAttribPointer,
      GLState.enableVertexAttribArray, GLState.createProgram, GLState.createShader]
  · rw [frameBody_trace]
    simp [triangleSetup, processShaderProgram, processVertexShader,
      processFragmentShader, GLState.genVertexArray, GLState.bindVertexArray,
      GLState.genBuffer, GLState.bindArrayBuffer, GLState.vertexAttribPointer,
      GLState.enableVertexAttribArray, GLState.createProgram, GLState.createShader]
  · intro hmem; exact absurd (hP _ hmem) (by omega)
  · simp [frameBody, processInput_gl, triangleSetup, processShaderProgram,
      processVertexShader, processFragmentShader, GLState.genVertexArray,
      GLState.bindVertexArray, GLState.genBuffer, GLState.bindArrayBuffer,
      GLState.vertexAttribPointer, GLState.enableVertexAttribArray,
      GLState.createProgram, GLState.createShader, GLState.deleteShader]

/-- Witness for claim C4 at a concrete input: the first loop iteration
from the initial state. -/
theorem c4_frame_recreates_resources_witness :
    ∃ vao vbo prog,
      Event.glGenVertexArrays vao ∈ (frameBody envEsc startSt).2 ∧
      vao ∉ startSt.gl.liveVAOs ∧ vao ∈ (frameBody envEsc startSt).1.gl.liveVAOs ∧
      Event.glGenBuffers vbo ∈ (frameBody envEsc startSt).2 ∧
      vbo ∉ startSt.gl.liveBuffers ∧ vbo ∈ (frameBody envEsc startSt).1.gl.liveBuffers ∧
      Event.glBufferData GL_ARRAY_BUFFER verticesByteSize vertices GL_STATIC_DRAW ∈
        (frameBody envEsc startSt).2 ∧
      Event.glCreateProgram prog ∈ (frameBody envEsc startSt).2 ∧
      Event.glLinkProgram prog ∈ (frameBody envEsc startSt).2 ∧
      prog ∉ startSt.gl.livePrograms ∧ prog ∈ (frameBody envEsc startSt).1.gl.livePrograms ∧
      (frameBody envEsc startSt).2.filter isRelease = [] :=
  c4_frame_recreates_resources envEsc startSt
    (by refine ⟨?_, ?_, ?_, ?_, ?_, ?_⟩ <;> simp [startSt, GLState.empty])

/-- Claim C5: each shader compile (vertex and fragment) reads
`GL_COMPILE_STATUS`; on failure it fetches the info log into a 512-byte
buffer and writes the prefixed diagnostic followed by at most 512 bytes
of log; on success it writes nothing; and in every case the function
returns the handle created by `glCreateShader`, which stays live —
failure is non-fatal. -/
theorem c5_shader_compile_nonfatal (env : Env) (g : GLState) :
    (Event.glCreateShader GL_VERTEX_SHADER (processVertexShader env g).1 ∈
        (processVertexShader env g).2.2 ∧
      Event.glGetShaderiv (processVertexShader env g).1 GL_COMPILE_STATUS
          (if env.vertexCompileOk then 1 else 0) ∈ (processVertexShader env g).2.2 ∧
      (processVertexShader env g).1 ∈ (processVertexShader env g).2.1.liveShaders) ∧
    (env.vertexCompileOk = true → (processVertexShader env g).2.2.filter isStdout = []) ∧
    (env.vertexCompileOk = false →
      (∃ l, (processVertexShader env g).2.2 =
        l ++ [Event.glGetShaderInfoLog (processVertexShader env g).1 512,
              Event.stdoutWrite vertexErrMsg,
              Event.stdoutWrite (infoLogTrunc env.vertexLog),
              Event.stdoutWrite endlStr]) ∧
      (infoLogTrunc env.vertexLog).length ≤ 512) ∧
    (Event.glCreateShader GL_FRAGMENT_SHADER (processFragmentShader env g).1 ∈
        (processFragmentShader env g).2.2 ∧
      Event.glGetShaderiv (processFragmentShader env g).1 GL_COMPILE_STATUS
          (if env.fragmentCompileOk then 1 else 0) ∈ (processFragmentShader env g).2.2 ∧
      (processFragmentShader env g).1 ∈ (processFragmentShader env g).2.1.liveShaders) ∧
    (env.fragmentCompileOk = true → (processFragmentShader env g).2.2.filter isStdout = []) ∧
    (env.fragmentCompileOk = false →
      (∃ l, (processFragmentShader env g).2.2 =
        l ++ [Event.glGetShaderInfoLog (processFragmentShader env g).1 512,
              Event.stdoutWrite fragmentErrMsg,
              Event.stdoutWrite (infoLogTrunc env.fragmentLog),
              Event.stdoutWrite endlStr]) ∧
      (infoLogTrunc env.fragmentLog).length ≤ 512) := by
  refine ⟨⟨?_, ?_, ?_⟩, ?_, ?_, ⟨?_, ?_, ?_⟩, ?_, ?_⟩
  · cases hv : env.vertexCompileOk <;> simp [processVertexShader, hv, GLState.createShader]
  · cases hv : env.vertexCompileOk <;> simp [processVertexShader, hv, GLState.createShader]
  · simp [processVertexShader, GLState.createShader]
  · intro hv; simp [processVertexShader, hv, isStdout, List.filter]
  · intro hv
    refine ⟨⟨[Event.glCreateShader GL_VERTEX_SHADER g.createShader.1,
      Event.glShaderSource g.createShader.1,
      Event.glCompileShader g.createShader.1,
      Event.glGetShaderiv g.createShader.1 GL_COMPILE_STATUS 0], ?_⟩,
      infoLogTrunc_le _⟩
    simp [processVertexShader, hv]
  · cases hf : env.fragmentCompileOk <;> simp [processFragmentShader, hf, GLState.createShader]
  · cases hf : env.fragmentCompileOk <;> simp [processFragmentShader, hf, GLState.createShader]
  · simp [processFragmentShader, GLState.createShader]
  · intro hf; simp [processFragmentShader, hf, isStdout, List.filter]
  · intro hf
    refine ⟨⟨[Event.glCreateShader GL_FRAGMENT_SHADER g.createShader.1,
      Event.glShaderSource g.createShader.1,
      Event.glCompileShader g.createShader.1,
      Event.glGetShaderiv g.createShader.1 GL_COMPILE_STATUS 0], ?_⟩,
      infoLogTrunc_le _⟩
    simp [processFragmentShader, hf]

/-- Witness for claim C5 at a concrete input: with a failing vertex
compile, the diagnostic block is emitted and bounded by 512 bytes. -/
theorem c5_shader_compile_nonfatal_witness :
    (∃ l, (processVertexShader envShaderFail GLState.empty).2.2 =
      l ++ [Event.glGetShaderInfoLog (processVertexShader envShaderFail GLState.empty).1 512,
            Event.stdoutWrite vertexErrMsg,
            Event.stdoutWrite (infoLogTrunc envShaderFail.vertexLog),
            Event.stdoutWrite endlStr]) ∧
    (infoLogTrunc envShaderFail.vertexLog).length ≤ 512 :=
  (c5_shader_compile_nonfatal envShaderFail GLState.empty).2.2.1 (by decide)

/-- Claim C6: after every call to `processShaderProgram` — whether or not
the link succeeded — both intermediate shader objects it created are
deleted: the trace records both the creations and both deletions, and in
the final GL state neither handle is a live shader. -/
theorem c6_intermediate_shaders_deleted (env : Env) (g : GLState) :
    ∃ vsh fsh,
      Event.glCreateShader GL_VERTEX_SHADER vsh ∈ (processShaderProgram env g).2.2 ∧
      Event.glCreateShader GL_FRAGMENT_SHADER fsh ∈ (processShaderProgram env g).2.2 ∧
      Event.glDeleteShader vsh ∈ (processShaderProgram env g).2.2 ∧
      Event.glDeleteShader fsh ∈ (processShaderProgram env g).2.2 ∧
      vsh ∉ (processShaderProgram env g).2.1.liveShaders ∧
      fsh ∉ (processShaderProgram env g).2.1.liveShaders := by
  refine ⟨g.nextName + 1, g.nextName + 2, ?_, ?_, ?_, ?_, ?_, ?_⟩ <;>
    simp [processShaderProgram, processVertexShader, processFragmentShader,
      GLState.createProgram, GLState.createShader, GLState.deleteShader,
      List.mem_filter]

/-- Witness for claim C6 at a concrete input: a successful build from the
empty GL state. -/
theorem c6_intermediate_shaders_deleted_witness :
    ∃ vsh fsh,
      Event.glCreateShader GL_VERTEX_SHADER vsh ∈
        (processShaderProgram envEsc GLState.empty).2.2 ∧
      Event.glCreateShader GL_FRAGMENT_SHADER fsh ∈
        (processShaderProgram envEsc GLState.empty).2.2 ∧
      Event.glDeleteShader vsh ∈ (processShaderProgram envEsc GLState.empty).2.2 ∧
      Event.glDeleteShader fsh ∈ (processShaderProgram envEsc GLState.empty).2.2 ∧
      vsh ∉ (processShaderProgram envEsc GLState.empty).2.1.liveShaders ∧
      fsh ∉ (processShaderProgram envEsc GLState.empty).2.1.liveShaders :=
  c6_intermediate_shaders_deleted envEsc GLState.empty

/-- Claim C7: the geometry configuration emits exactly the mandated call
sequence — VAO generated and bound, then VBO generated and bound to the
array-buffer target, then the data upload, then the attribute-pointer
declaration, then the enable — and afterwards the fresh VAO records
exactly one enabled attribute, index 0, with descriptor (size 3, type
float, not normalized, stride 12 bytes, offset 0, backed by the VBO). -/
theorem c7_vao_configuration (g : GLState) (h : GLWf g) :
    (triangleSetup g).2.2 =
      [Event.glGenVertexArrays (triangleSetup g).1.1,
       Event.glBindVertexArray (triangleSetup g).1.1,
       Event.glGenBuffers (triangleSetup g).1.2,
       Event.glBindBuffer GL_ARRAY_BUFFER (triangleSetup g).1.2,
       Event.glBufferData GL_ARRAY_BUFFER verticesByteSize vertices GL_STATIC_DRAW,
       Event.glVertexAttribPointer 0 3 GL_FLOAT false (3 * 4) 0,
       Event.glEnableVertexAttribArray 0] ∧
    (triangleSetup g).2.1.isEnabled (triangleSetup g).1.1 0 = true ∧
    (∀ i, i ≠ 0 → (triangleSetup g).2.1.isEnabled (triangleSetup g).1.1 i = false) ∧
    (triangleSetup g).2.1.attribOf (triangleSetup g).1.1 0 =
      some ⟨3, GL_FLOAT, false, 12, 0, some (triangleSetup g).1.2⟩ ∧
    (∀ i, i ≠ 0 → (triangleSetup g).2.1.attribOf (triangleSetup g).1.1 i = none) := by
  obtain ⟨-, -, -, -, hA, hE⟩ := h
  refine ⟨rfl, ?_, ?_, ?_, ?_⟩
  · simp [triangleSetup, GLState.genVertexArray, GLState.bindVertexArray,
      GLState.genBuffer, GLState.bindArrayBuffer, GLState.vertexAttribPointer,
      GLState.enableVertexAttribArray, GLState.isEnabled]
  · intro i hi
    simp only [triangleSetup, GLState.genVertexArray, GLState.bindVertexArray,
      GLState.genBuffer, GLState.bindArrayBuffer, GLState.vertexAttribPointer,
      GLState.enableVertexAttribArray, GLState.isEnabled]
    simp only [decide_eq_false_iff_not]
    intro hmem
    rcases List.mem_cons.mp hmem with hc | hmem
    · exact hi (by injection hc)
    · have hin := (List.mem_filter.mp hmem).1
      exact absurd (hE _ hin) (by simp)
  · simp [triangleSetup, GLState.genVertexArray, GLState.bindVertexArray,
      GLState.genBuffer, GLState.bindArrayBuffer, GLState.vertexAttribPointer,
      GLState.enableVertexAttribArray, GLState.attribOf, List.find?]
  · intro i hi
    simp only [triangleSetup, GLState.genVertexArray, GLState.bindVertexArray,
      GLState.genBuffer, GLState.bindArrayBuffer, GLState.vertexAttribPointer,
      GLState.enableVertexAttribArray, GLState.attribOf]
    rw [List.find?_cons_of_neg, List.find?_eq_none.mpr]
    · rfl
    · intro x hx
      have hin := (List.mem_filter.mp hx).1
      have hlt := hA _ hin
      simp only [Bool.and_eq_true, beq_iff_eq]
      rintro ⟨h1, -⟩
      omega
    · simp [hi, Ne.symm hi]

/-- Witness for claim C7 at a concrete input: the configuration from the
empty GL state leaves attribute 0 enabled on the fresh VAO. -/
theorem c7_vao_configuration_witness :
    (triangleSetup GLState.empty).2.1.isEnabled (triangleSetup GLState.empty).1.1 0 = true :=
  (c7_vao_configuration GLState.empty
    (by refine ⟨?_, ?_, ?_, ?_, ?_, ?_⟩ <;> simp [GLState.empty])).2.1

/-- Claim C8: a loop head reached with the close flag unset runs exactly
one loop body, whose trace contains exactly one draw call — of 3 vertices
with primitive triangles and first index 0 — and exactly one buffer swap,
with the clear preceding the draw and the draw issued as `glUseProgram`,
then `glBindVertexArray`, then `glDrawArrays`. -/
theorem c8_frame_draw_once (env : Env) (fuel : Nat) (st : St)
    (h : st.closeFlag = false) :
    loopAux env (fuel + 1) st =
      ((loopAux env fuel (frameBody env st).1).1,
       Event.glfwWindowShouldClose false ::
         ((frameBody env st).2 ++ (loopAux env fuel (frameBody env st).1).2)) ∧
    (frameBody env st).2.filter isDraw = [Event.glDrawArrays GL_TRIANGLES 0 3] ∧
    (frameBody env st).2.filter isSwap = [Event.glfwSwapBuffers] ∧
    (∃ m1 m2 m3, (frameBody env st).2 =
      m1 ++ Event.glClear GL_COLOR_BUFFER_BIT ::
        (m2 ++ Event.glDrawArrays GL_TRIANGLES 0 3 :: m3)) ∧
    (∃ l p v, (frameBody env st).2 =
      l ++ [Event.glUseProgram p, Event.glBindVertexArray v,
            Event.glDrawArrays GL_TRIANGLES 0 3, Event.glfwPollEvents,
            Event.glfwSwapBuffers]) :=
  ⟨c8_loop_unfold env fuel st h, frame_filter_isDraw env st, frame_filter_isSwap env st,
   frame_clear_before_draw env st, frame_tail_decomp env st⟩

/-- Witness for claim C8 at a concrete input: the first frame from the
initial state issues exactly one draw of 3 vertices. -/
theorem c8_frame_draw_once_witness :
    (frameBody envEsc startSt).2.filter isDraw = [Event.glDrawArrays GL_TRIANGLES 0 3] :=
  (c8_frame_draw_once envEsc 0 startSt rfl).2.1

/-- Claim C9: the buffer uploaded to the array-buffer target is exactly
36 bytes — 3 vertices of 3 floats each — with usage hint static-draw,
containing exactly the three vertices of the triangle, all coordinates
within [-1, 1]. -/
theorem c9_vertex_buffer_contents (g : GLState) :
    Event.glBufferData GL_ARRAY_BUFFER verticesByteSize vertices GL_STATIC_DRAW ∈
      (triangleSetup g).2.2 ∧
    verticesByteSize = 36 ∧
    vertices.length = 9 ∧
    vertices = [-1/2, -1/2, 0, 1/2, -1/2, 0, 0, 1/2, 0] ∧
    vertices.all (fun q => decide (-1 ≤ q ∧ q ≤ 1)) = true := by
  refine ⟨?_, by decide, by decide, rfl, ?_⟩
  · simp [triangleSetup]
  · simp only [vertices, List.all_eq_true, decide_eq_true_iff]
    intro q hq
    rcases List.mem_cons.mp hq with h | hq <;>
      first
        | (subst h; constructor <;> norm_num)
        | skip
    repeat
      rcases List.mem_cons.mp hq with h | hq <;>
        first
          | (subst h; constructor <;> norm_num)
          | skip
    simp at hq

/-- Claim C10: every loop-body trace polls events exactly once and swaps
buffers exactly once, with the poll immediately preceding the swap at the
end of the iteration — the poll-then-swap order, uniformly for every
iteration. -/
theorem c10_poll_then_swap (env : Env) (st : St) :
    (frameBody env st).2.filter isPoll = [Event.glfwPollEvents] ∧
    (frameBody env st).2.filter isSwap = [Event.glfwSwapBuffers] ∧
    ∃ l, (frameBody env st).2 = l ++ [Event.glfwPollEvents, Event.glfwSwapBuffers] := by
  refine ⟨frame_filter_isPoll env st, frame_filter_isSwap env st, ?_⟩
  refine ⟨(processInput env st).2 ++ clearTrace ++ (triangleSetup st.gl).2.2 ++
    (processShaderProgram env (triangleSetup st.gl).2.1).2.2 ++
    [Event.glUseProgram (processShaderProgram env (triangleSetup st.gl).2.1).1,
     Event.glBindVertexArray (triangleSetup st.gl).1.1,
     Event.glDrawArrays GL_TRIANGLES 0 3], ?_⟩
  rw [frameBody_trace]
  simp [List.append_assoc]

end OpenGLTriangle
